import Mathlib

/-!
Verification of the HRDC chatbot retrieval pipeline.

This file gives a shallow embedding, in Lean, of the retrieval core of the
hrdc-chatbot repository — the chunker (`document_processor.DocumentProcessor.chunk_text`),
the chunk-insertion routine (`database.DatabaseManager.insert_document_chunks`),
and the query pipeline (`chatbot.HRDCChatbot.generate_embedding`,
`generate_embeddings_batch`, `search_similar_chunks`, `search_by_keyword`,
`generate_answer_with_llm`, `ask`) — and proves or refutes the specified
properties against it.

Modelling conventions:
* Python strings are `List Char`; Python slice/`rfind`/`strip` semantics are
  reproduced exactly (including negative slice indices).
* The `while` loop of `chunk_text` is modelled with explicit fuel, so that
  non-termination of the source loop is expressible as `= none` for all fuel.
* External services (the OpenAI embedding and chat APIs, the PostgreSQL
  backend answering the pgvector probe, and the numpy floating-point cosine)
  enter as explicit parameters of the model; database tables are lists of rows.
* Machine floats appear only through the abstract similarity parameter; the
  concrete instantiations use exact rational arithmetic on one-dimensional
  vectors, where the Euclidean norm is the absolute value.
-/

namespace HRDC

/-- Resolution of one Python slice endpoint: a negative index counts from the
end of the string (clamped at 0), a nonnegative one is clamped at the length. -/
def pyIdx (len : Nat) (i : Int) : Nat :=
  if i < 0 then ((len : Int) + i).toNat else min i.toNat len

/-- Python slice `s[a:b]` (step 1), with full negative-index semantics. -/
def pySlice (s : List Char) (a b : Int) : List Char :=
  (s.take (pyIdx s.length b)).drop (pyIdx s.length a)

/-- Whether `pat` occurs in `s` starting at position `i` (used by `rfind`). -/
def matchesAt (s pat : List Char) (i : Nat) : Bool :=
  (s.drop i).take pat.length == pat

/-- Python `s.rfind(pat)`: the largest index at which `pat` occurs in `s`,
or `-1` when there is no occurrence. -/
def rfind (s pat : List Char) : Int :=
  match ((List.range (s.length + 1)).filter (matchesAt s pat)).getLast? with
  | some i => (i : Int)
  | none => -1

/-- The whitespace characters removed by Python `str.strip()`. -/
def isPySpace (c : Char) : Bool :=
  c == ' ' || c == '\t' || c == '\n' || c == '\r' || c == Char.ofNat 11 || c == Char.ofNat 12

/-- Python `s.strip()`: remove leading and trailing whitespace. -/
def pyStrip (s : List Char) : List Char :=
  ((s.dropWhile isPySpace).reverse.dropWhile isPySpace).reverse

/-- The paragraph-break pattern searched by the chunker. -/
def paraBreak : List Char := ['\n', '\n']

/-- The sentence-break pattern a period followed by a space. -/
def periodSpace : List Char := ['.', ' ']

/-- The sentence-break pattern a period followed by a newline. -/
def periodNewline : List Char := ['.', '\n']

/-- One iteration of the `while` loop of `DocumentProcessor.chunk_text`
(document_processor.py lines 93-112): from the current `start`, take the
window `text[start:start+size]`; if the naive end lies strictly inside the
text, search the window backwards for a paragraph break past the half-size
mark, then for a sentence break past the half-size mark, and shorten the cut
accordingly; emit the stripped chunk and return it with the next `start`,
which the source computes as `end - overlap`.  The float test
`last > chunk_size * 0.5` is rendered exactly as `2 * last > size`. -/
def chunkStep (text : List Char) (size overlap : Nat) (start : Int) : List Char × Int :=
  let e0 : Int := start + (size : Int)
  let chunk0 := pySlice text start e0
  let pe : List Char × Int :=
    if e0 < (text.length : Int) then
      let lastPara := rfind chunk0 paraBreak
      if 2 * lastPara > (size : Int) then
        (pySlice text start (start + lastPara), start + lastPara)
      else
        let lastPeriod := max (rfind chunk0 periodSpace) (rfind chunk0 periodNewline)
        if 2 * lastPeriod > (size : Int) then
          (pySlice text start (start + lastPeriod + 1), start + lastPeriod + 1)
        else (chunk0, e0)
    else (chunk0, e0)
  (pyStrip pe.1, pe.2 - (overlap : Int))

/-- The `while start < text_length` loop of `chunk_text`, with explicit fuel:
`none` means the given fuel was exhausted before the loop exited.  The source
loop has no other exit, so divergence of the source is `= none` for every fuel. -/
def chunkLoop (text : List Char) (size overlap : Nat) : Int → Nat → Option (List (List Char))
  | _, 0 => none
  | start, fuel + 1 =>
    if start < (text.length : Int) then
      (chunkLoop text size overlap (chunkStep text size overlap start).2 fuel).map
        (fun rest => (chunkStep text size overlap start).1 :: rest)
    else
      some []

/-- Model of `DocumentProcessor.chunk_text(text, chunk_size, overlap)`
(document_processor.py lines 81-114).  A zero argument falls back to the
configuration default (`chunk_size or config.CHUNK_SIZE`, Python falsiness),
whose documented values are 1000 and 200; empty text returns no chunks. -/
def chunk_text (text : List Char) (size overlap : Nat) (fuel : Nat) : Option (List (List Char)) :=
  if text = [] then some []
  else chunkLoop text (if size = 0 then 1000 else size) (if overlap = 0 then 200 else overlap) 0 fuel

/-- A text with none of the three break patterns the chunker searches for:
no paragraph break and no sentence-ending period. -/
def NoBreaks (text : List Char) : Prop :=
  ¬ paraBreak <:+: text ∧ ¬ periodSpace <:+: text ∧ ¬ periodNewline <:+: text

/-- An embedding vector, a list of exact rationals standing for the float list
the OpenAI API returns (`List[float]` in the source). -/
abbrev Emb := List ℚ

/-- One row of the `document_content` table: `(document_id, chunk_index,
content, embedding)`, the columns written by `insert_document_chunks`
(database.py lines 166-207); `embedding` is nullable. -/
structure ChunkRow where
  document_id : Nat
  chunk_index : Nat
  content : List Char
  embedding : Option Emb
deriving DecidableEq, Repr

/-- Model of `DatabaseManager.insert_document_chunks(document_id, chunks,
embeddings)` (database.py lines 166-207).  The storage state is the list of
`document_content` rows; the Boolean is the returned success flag.  The source
guard is `if embeddings and len(embeddings) == len(chunks)` — `embeddings`
must be truthy (not `None`, not empty) and of matching length — and rows are
built by `enumerate(zip(chunks, embeddings))`, else `enumerate(chunks)` with
no embedding.  Both branches commit and return `True`. -/
def insert_document_chunks (storage : List ChunkRow) (document_id : Nat)
    (chunks : List (List Char)) (embeddings : Option (List Emb)) : Bool × List ChunkRow :=
  match embeddings with
  | some embs =>
    if !embs.isEmpty && embs.length == chunks.length then
      (true, storage ++ (chunks.zip embs).enum.map
        (fun p => ⟨document_id, p.1, p.2.1, some p.2.2⟩))
    else
      (true, storage ++ chunks.enum.map (fun p => ⟨document_id, p.1, p.2, none⟩))
  | none => (true, storage ++ chunks.enum.map (fun p => ⟨document_id, p.1, p.2, none⟩))

/-- One row of the join the search queries fetch (chatbot.py lines 175-210):
chunk id, content, chunk ordinal, document id, title, date (nullable, as an
abstract day ordinal), file type, download URL, and the stored embedding. -/
structure DocRow where
  chunk_id : Nat
  content : List Char
  chunk_index : Nat
  document_id : Nat
  title : List Char
  date : Option Nat
  file_type : List Char
  download_url : List Char
  embedding : Option Emb
deriving DecidableEq, Repr

/-- A formatted search result dictionary (chatbot.py lines 240-252 and
293-304): the row data plus a similarity score, which is present on the
vector paths and absent on keyword results. -/
structure SearchResult where
  row : DocRow
  similarity : Option ℚ
deriving DecidableEq, Repr

/-- The observable calls the chatbot issues against its collaborators: the
embedding API, the `information_schema` capability probe, the pgvector query,
the JSONB candidate fetch, the keyword query, and the chat-completion call. -/
inductive DbOp where
  | embedCall
  | probeSchema
  | vectorQuery
  | jsonbFetch
  | keywordQuery
  | llmCall
deriving DecidableEq, Repr

/-- The environment a query runs against: the stored rows, the outcome of
`generate_embedding` (chatbot.py lines 51-63, `none` models the `None`
returned when the API call raises), the numpy cosine-similarity computation,
the answer of the `information_schema` probe, and the backend-ranked result
of the pgvector query. -/
structure SearchEnv where
  rows : List DocRow
  embed : List Char → Option Emb
  sim : Emb → Emb → ℚ
  usePgvector : Bool
  nativeSearch : Emb → Nat → List (DocRow × ℚ)

/-- Whether `np.linalg.norm(v) > 0`: true exactly when some coordinate is
nonzero. -/
def normPos (v : Emb) : Bool :=
  v.any (fun x => !(x == 0))

/-- The candidate fetch of the JSONB fallback path (chatbot.py lines 195-210):
rows with a non-null embedding, capped at 500. -/
def jsonb_candidates (rows : List DocRow) : List DocRow :=
  (rows.filter (fun r => r.embedding.isSome)).take 500

/-- The in-memory scoring pass of `search_similar_chunks` (chatbot.py lines
212-232): score each candidate whose norm and the query norm are positive
(zero-norm candidates are skipped), sort by similarity descending — Python
`list.sort(key=..., reverse=True)` is a stable sort under the total preorder
of descending keys, and every stable sort of that preorder yields the same
list, so it is rendered by the stable `insertionSort` — then truncate to
`limit`. -/
def jsonb_search (sim : Emb → Emb → ℚ) (rows : List DocRow) (q : Emb) (limit : Nat) :
    List (DocRow × ℚ) :=
  let scored := (jsonb_candidates rows).filterMap (fun r =>
    match r.embedding with
    | some e => if normPos q && normPos e then some (r, sim q e) else none
    | none => none)
  (scored.insertionSort (fun x y => y.2 ≤ x.2)).take limit

/-- Lower-casing for the case-insensitive `ILIKE` match. -/
def lowerList (s : List Char) : List Char :=
  s.map Char.toLower

/-- Whether `pat` occurs as a contiguous substring of `hay`. -/
def containsSub (hay pat : List Char) : Bool :=
  !(rfind hay pat == -1)

/-- The SQL predicate `content ILIKE %keyword%`: case-insensitive substring
containment (chatbot.py line 284). -/
def ilikeContains (content kw : List Char) : Bool :=
  containsSub (lowerList content) (lowerList kw)

/-- The comparison behind `ORDER BY d.date DESC` in PostgreSQL: later dates
first, `NULL` first under descending order. -/
def dateDescLe (x y : Option Nat) : Bool :=
  match x, y with
  | none, _ => true
  | some _, none => false
  | some a, some b => decide (b ≤ a)

/-- Model of `HRDCChatbot.search_by_keyword(keyword, limit)` (chatbot.py lines
263-310): filter rows whose content contains the keyword case-insensitively,
order by document date descending, truncate, and format without a similarity
score. -/
def search_by_keyword (rows : List DocRow) (keyword : List Char) (limit : Nat) :
    List SearchResult :=
  (((rows.filter (fun r => ilikeContains r.content keyword)).insertionSort
      (fun x y => dateDescLe x.date y.date = true)).take limit).map (fun r => ⟨r, none⟩)

/-- Model of `HRDCChatbot.search_similar_chunks(query, limit)` (chatbot.py
lines 150-261), together with the trace of external calls it issues.  The
source first calls `generate_embedding`; on a falsy result (`None` after an
API failure, or an empty vector) it returns `[]` at line 160 — no keyword
fallback runs on this path, the `except` fallback at line 261 is reachable
only from an exception raised later in the body.  Otherwise it probes
`information_schema` for the embedding column type on every call, then runs
either the pgvector query or the in-memory JSONB pass. -/
def search_similar_chunks (env : SearchEnv) (query : List Char) (limit : Nat) :
    List SearchResult × List DbOp :=
  match env.embed query with
  | none => ([], [DbOp.embedCall])
  | some q =>
    if q.isEmpty then ([], [DbOp.embedCall])
    else if env.usePgvector then
      ((env.nativeSearch q limit).map (fun p => ⟨p.1, some p.2⟩),
        [DbOp.embedCall, DbOp.probeSchema, DbOp.vectorQuery])
    else
      ((jsonb_search env.sim env.rows q limit).map (fun p => ⟨p.1, some p.2⟩),
        [DbOp.embedCall, DbOp.probeSchema, DbOp.jsonbFetch])

/-- The fixed no-context response of `generate_answer_with_llm` (chatbot.py
line 358); `Char.ofNat 39` is the apostrophe of the source text. -/
def noInfoMsg : List Char :=
  "I couldn".toList ++ [Char.ofNat 39] ++
    "t find any relevant information in the HRDC documents to answer your question.".toList

/-- The date field as displayed: `str(row[5]) if row[5] else the literal
Unknown` (chatbot.py line 248). -/
def dateText (d : Option Nat) : List Char :=
  match d with
  | some n => (toString n).toList
  | none => "Unknown".toList

/-- One source block of the prompt context (chatbot.py line 364). -/
def sourceBlock (i : Nat) (c : SearchResult) : List Char :=
  "Source ".toList ++ (toString i).toList ++ " (Document: ".toList ++ c.row.title ++
    ", Date: ".toList ++ dateText c.row.date ++ "):\n".toList ++ c.row.content ++
    "\n\n".toList

/-- The concatenated, 1-indexed context text built from the retrieved chunks
(chatbot.py lines 362-364). -/
def contextText (chunks : List SearchResult) : List Char :=
  (chunks.enum.map (fun p => sourceBlock (p.1 + 1) p.2)).flatten

/-- Model of `HRDCChatbot.generate_answer_with_llm(query, context_chunks)`
(chatbot.py lines 355-399): with no context chunks it returns the fixed
message before any API call; otherwise it issues exactly one chat-completion
call, modelled by the `llm` parameter applied to the query and the built
context.  The second component is the trace of synthesis calls. -/
def generate_answer_with_llm (llm : List Char → List Char → List Char)
    (query : List Char) (context_chunks : List SearchResult) : List Char × List DbOp :=
  if context_chunks.isEmpty then (noInfoMsg, [])
  else (llm query (contextText context_chunks), [DbOp.llmCall])

/-- The dictionary returned by `HRDCChatbot.ask` (chatbot.py lines 416-421). -/
structure AskResult where
  query : List Char
  response : List Char
  sources : List SearchResult
  num_sources : Nat
deriving DecidableEq, Repr

/-- Model of `HRDCChatbot.ask(query, use_vector_search)` (chatbot.py lines
401-421): retrieve 7 chunks by vector search or by keyword search, synthesise
an answer, and return the result dictionary with the sources and their count,
together with the trace of external calls. -/
def ask (env : SearchEnv) (llm : List Char → List Char → List Char)
    (query : List Char) (use_vector_search : Bool) : AskResult × List DbOp :=
  let sr : List SearchResult × List DbOp :=
    if use_vector_search then search_similar_chunks env query 7
    else (search_by_keyword env.rows query 7, [DbOp.keywordQuery])
  let ans := generate_answer_with_llm llm query sr.1
  (⟨query, ans.1, sr.1, sr.1.length⟩, sr.2 ++ ans.2)

/-- The text cleaning applied before embedding: `text.replace(chr(10), one
space)` (chatbot.py lines 55 and 75), a character map since the pattern is a
single character. -/
def clean (t : List Char) : List Char :=
  t.map (fun c => if c = '\n' then ' ' else c)

/-- Model of `HRDCChatbot.generate_embeddings_batch(texts)` (chatbot.py lines
65-90): the loop `for i in range(0, len(texts), 20)` processes successive
sub-batches of at most 20 texts, cleans each, and extends the accumulator
with the API answer for the sub-batch.  The embedding API is the parameter
`f`, applied pointwise since its response is specified index-aligned with the
request. -/
def generate_embeddings_batch (f : List Char → Emb) (texts : List (List Char)) : List Emb :=
  if h : texts = [] then []
  else ((texts.take 20).map (fun t => f (clean t))) ++ generate_embeddings_batch f (texts.drop 20)
termination_by texts.length
decreasing_by
  rw [List.length_drop]
  exact Nat.sub_lt (List.length_pos.mpr h) (by decide)

/-- The dot product of two rational vectors. -/
def dotProd (a b : Emb) : ℚ :=
  ((a.zip b).map (fun p => p.1 * p.2)).sum

/-- The Euclidean norm of a one-dimensional vector, exactly: the absolute
value of its single coordinate. -/
def norm1 (v : Emb) : ℚ :=
  |v.headD 0|

/-- The cosine similarity `dot(q, d) / (norm(q) * norm(d))` of chatbot.py line
227, computed exactly on one-dimensional vectors. -/
def cosine1 (a b : Emb) : ℚ :=
  dotProd a b / (norm1 a * norm1 b)

/-- The ordering the specification claims for vector-mode results: similarity
descending, ties broken by document date descending, then by chunk ordinal
ascending (a missing date is read as day 0). -/
def specLe (x y : DocRow × ℚ) : Prop :=
  y.2 < x.2 ∨ (x.2 = y.2 ∧ ((y.1.date.getD 0) < (x.1.date.getD 0) ∨
    ((x.1.date.getD 0) = (y.1.date.getD 0) ∧ x.1.chunk_index ≤ y.1.chunk_index)))

instance (x y : DocRow × ℚ) : Decidable (specLe x y) := by
  unfold specLe
  infer_instance

/-- The divergence witness for the chunker loop: a text with a paragraph break
just past the half-size mark. -/
def exText : List Char := "abcdef\n\nxyzw".toList

/-- A stored row whose content contains the word grant, used by the
embedding-failure scenario. -/
def gRow : DocRow :=
  ⟨1, "training grant conditions".toList, 0, 1, "Grant circular".toList, some 5,
    "pdf".toList, "u1".toList, some [1]⟩

/-- An environment in which the embedding call fails (`generate_embedding`
returns `None`) while keyword search would find a matching row. -/
def failEnv : SearchEnv :=
  { rows := [gRow]
    embed := fun _ => none
    sim := cosine1
    usePgvector := false
    nativeSearch := fun _ _ => [] }

/-- An environment with a working embedding call and an empty store. -/
def emptyEnv : SearchEnv :=
  { rows := []
    embed := fun _ => some [1]
    sim := cosine1
    usePgvector := false
    nativeSearch := fun _ _ => [] }

/-- A fixed synthesis collaborator used to instantiate theorems. -/
def llmConst : List Char → List Char → List Char :=
  fun _ _ => "ok".toList

/-- The older-dated of two rows carrying identical stored embeddings. -/
def rowOld : DocRow :=
  ⟨1, "alpha".toList, 3, 1, "old doc".toList, some 1, "pdf".toList, "u1".toList, some [1]⟩

/-- The newer-dated of two rows carrying identical stored embeddings. -/
def rowNew : DocRow :=
  ⟨2, "beta".toList, 0, 2, "new doc".toList, some 2, "pdf".toList, "u2".toList, some [1]⟩

/-! ## Lemmas about the Python string primitives -/

lemma pySlice_isPart (s : List Char) (a b : Int) : pySlice s a b <:+: s := by
  have h1 : pySlice s a b <:+ s.take (pyIdx s.length b) := List.drop_suffix _ _
  have h2 : s.take (pyIdx s.length b) <+: s := List.take_prefix _ _
  have h1' : pySlice s a b <:+: s.take (pyIdx s.length b) := List.IsSuffix.isInfix h1
  have h2' : s.take (pyIdx s.length b) <:+: s := List.IsPrefix.isInfix h2
  exact h1'.trans h2'

lemma occ_of_rfind_ne (s pat : List Char) (h : rfind s pat ≠ -1) : pat <:+: s := by
  unfold rfind at h
  rcases hg : ((List.range (s.length + 1)).filter (matchesAt s pat)).getLast? with _ | i
  · rw [hg] at h
    exact absurd rfl h
  · have hmem := List.mem_of_mem_getLast? hg
    have hm : matchesAt s pat i = true := (List.mem_filter.mp hmem).2
    unfold matchesAt at hm
    have heq : (s.drop i).take pat.length = pat := by
      exact eq_of_beq hm
    rw [← heq]
    have h1 : (s.drop i).take pat.length <+: s.drop i := List.take_prefix _ _
    have h2 : s.drop i <:+ s := List.drop_suffix _ _
    have h1' : (s.drop i).take pat.length <:+: s.drop i := List.IsPrefix.isInfix h1
    have h2' : s.drop i <:+: s := List.IsSuffix.isInfix h2
    exact h1'.trans h2'

lemma rfind_eq_neg_of_no_occ (s pat : List Char) (h : ¬ pat <:+: s) : rfind s pat = -1 := by
  by_contra hne
  exact h (occ_of_rfind_ne s pat hne)

lemma rfind_pySlice_eq_neg (text : List Char) (a b : Int) (pat : List Char)
    (h : ¬ pat <:+: text) : rfind (pySlice text a b) pat = -1 :=
  rfind_eq_neg_of_no_occ _ _ (fun hc => h (hc.trans (pySlice_isPart text a b)))

/-! ## The chunker loop -/

lemma chunkLoop_zero (text : List Char) (size overlap : Nat) (start : Int) :
    chunkLoop text size overlap start 0 = none := rfl

lemma chunkLoop_succ (text : List Char) (size overlap : Nat) (start : Int) (fuel : Nat) :
    chunkLoop text size overlap start (fuel + 1) =
      if start < (text.length : Int) then
        (chunkLoop text size overlap (chunkStep text size overlap start).2 fuel).map
          (fun rest => (chunkStep text size overlap start).1 :: rest)
      else
        some [] := rfl

lemma chunkStep_of_noBreaks (text : List Char) (size overlap : Nat) (hb : NoBreaks text)
    (start : Int) :
    chunkStep text size overlap start =
      (pyStrip (pySlice text start (start + (size : Int))), start + (size : Int) - (overlap : Int)) := by
  obtain ⟨h1, h2, h3⟩ := hb
  simp only [chunkStep]
  by_cases he : start + (size : Int) < (text.length : Int)
  · rw [if_pos he, rfind_pySlice_eq_neg text _ _ _ h1, rfind_pySlice_eq_neg text _ _ _ h2,
      rfind_pySlice_eq_neg text _ _ _ h3]
    have hs : ¬ (2 * (-1 : Int) > (size : Int)) := by
      have : (0 : Int) ≤ (size : Int) := Int.ofNat_nonneg size
      omega
    rw [if_neg hs]
    simp only [max_self]
    rw [if_neg hs]
  · rw [if_neg he]

lemma chunkLoop_cons (text : List Char) (size overlap : Nat) (start : Int) (fuel : Nat)
    (h : start < (text.length : Int)) :
    chunkLoop text size overlap start (fuel + 1) =
      (chunkLoop text size overlap (chunkStep text size overlap start).2 fuel).map
        (fun rest => (chunkStep text size overlap start).1 :: rest) := by
  rw [chunkLoop_succ, if_pos h]

lemma chunkLoop_done (text : List Char) (size overlap : Nat) (start : Int) (fuel : Nat)
    (h : ¬ start < (text.length : Int)) :
    chunkLoop text size overlap start (fuel + 1) = some [] := by
  rw [chunkLoop_succ, if_neg h]

/-- Unrolling the chunker on a 2500-character text with no break patterns:
the scan emits the four windows starting at 0, 800, 1600 and 2400. -/
lemma chunk_text_2500 (text : List Char) (h : text.length = 2500) (hb : NoBreaks text)
    (fuel : Nat) :
    chunk_text text 1000 200 (fuel + 5) =
      some [pyStrip (pySlice text 0 1000), pyStrip (pySlice text 800 1800),
        pyStrip (pySlice text 1600 2600), pyStrip (pySlice text 2400 3400)] := by
  have hne : text ≠ [] := by
    intro h0
    rw [h0] at h
    simp at h
  have hl : (text.length : Int) = 2500 := by exact_mod_cast h
  have hstep := chunkStep_of_noBreaks text 1000 200 hb
  have e1 : chunkLoop text 1000 200 0 (fuel + 4 + 1) =
      (chunkLoop text 1000 200 800 (fuel + 4)).map
        (fun rest => pyStrip (pySlice text 0 1000) :: rest) := by
    rw [chunkLoop_cons text 1000 200 0 (fuel + 4) (by rw [hl]; norm_num), hstep 0]
    norm_num
  have e2 : chunkLoop text 1000 200 800 (fuel + 3 + 1) =
      (chunkLoop text 1000 200 1600 (fuel + 3)).map
        (fun rest => pyStrip (pySlice text 800 1800) :: rest) := by
    rw [chunkLoop_cons text 1000 200 800 (fuel + 3) (by rw [hl]; norm_num), hstep 800]
    norm_num
  have e3 : chunkLoop text 1000 200 1600 (fuel + 2 + 1) =
      (chunkLoop text 1000 200 2400 (fuel + 2)).map
        (fun rest => pyStrip (pySlice text 1600 2600) :: rest) := by
    rw [chunkLoop_cons text 1000 200 1600 (fuel + 2) (by rw [hl]; norm_num), hstep 1600]
    norm_num
  have e4 : chunkLoop text 1000 200 2400 (fuel + 1 + 1) =
      (chunkLoop text 1000 200 3200 (fuel + 1)).map
        (fun rest => pyStrip (pySlice text 2400 3400) :: rest) := by
    rw [chunkLoop_cons text 1000 200 2400 (fuel + 1) (by rw [hl]; norm_num), hstep 2400]
    norm_num
  have e5 : chunkLoop text 1000 200 3200 (fuel + 1) = some [] :=
    chunkLoop_done text 1000 200 3200 fuel (by rw [hl]; norm_num)
  unfold chunk_text
  rw [if_neg hne]
  norm_num
  rw [show fuel + 5 = fuel + 4 + 1 from rfl, e1,
    show fuel + 4 = fuel + 3 + 1 from rfl, e2,
    show fuel + 3 = fuel + 2 + 1 from rfl, e3,
    show fuel + 2 = fuel + 1 + 1 from rfl, e4, e5]
  rfl

/-- The first two windows of the 2500-character scan overlap in 200
characters: the last 200 characters of window `[0, 1000)` are the first 200
characters of window `[800, 1800)`. -/
lemma window_overlap_200 (text : List Char) (h : text.length = 2500) :
    (pySlice text 0 1000).drop 800 = (pySlice text 800 1800).take 200 ∧
      ((pySlice text 0 1000).drop 800).length = 200 := by
  have h0 : pyIdx text.length 0 = 0 := by
    unfold pyIdx
    norm_num
  have h800 : pyIdx text.length 800 = 800 := by
    rw [h]
    decide
  have h1000 : pyIdx text.length 1000 = 1000 := by
    rw [h]
    decide
  have h1800 : pyIdx text.length 1800 = 1800 := by
    rw [h]
    decide
  unfold pySlice
  rw [h0, h800, h1000, h1800, List.drop_zero]
  constructor
  · rw [List.drop_take, List.drop_take, List.take_take]
    norm_num
  · rw [List.drop_take, List.length_take, List.length_drop, h]
    norm_num

lemma no_occ_replicate (pat : List Char) (c c0 : Char) (n : Nat) (hc : c0 ∈ pat)
    (hne : c0 ≠ c) : ¬ pat <:+: List.replicate n c := by
  intro hinf
  exact hne (List.eq_of_mem_replicate (hinf.subset hc))

lemma noBreaks_replicate_a (n : Nat) : NoBreaks (List.replicate n 'a') := by
  refine ⟨?_, ?_, ?_⟩
  · exact no_occ_replicate paraBreak 'a' '\n' n (by decide) (by decide)
  · exact no_occ_replicate periodSpace 'a' '.' n (by decide) (by decide)
  · exact no_occ_replicate periodNewline 'a' '.' n (by decide) (by decide)

lemma dropWhile_replicate_a (m : Nat) :
    (List.replicate m 'a').dropWhile isPySpace = List.replicate m 'a' := by
  cases m with
  | zero => rfl
  | succ k =>
    rw [List.replicate_succ, List.dropWhile_cons, if_neg (by decide)]

lemma pyStrip_replicate_a (n : Nat) :
    pyStrip (List.replicate n 'a') = List.replicate n 'a' := by
  unfold pyStrip
  rw [dropWhile_replicate_a, List.reverse_replicate, dropWhile_replicate_a,
    List.reverse_replicate]

lemma pySlice_replicate_a (n : Nat) (a b : Int) :
    pySlice (List.replicate n 'a') a b =
      List.replicate (min (pyIdx n b) n - pyIdx n a) 'a' := by
  unfold pySlice
  rw [List.length_replicate, List.take_replicate, List.drop_replicate]

/-- C2 (amended): on any 2500-character text with no paragraph break and no
sentence-ending period, `chunk_text(text, 1000, 200)` terminates and returns
exactly FOUR chunks — the stripped windows `[0,1000)`, `[800,1800)`,
`[1600,2500)` and `[2400,2500)`; the scan re-emits the tail because the next
start is computed from the unclamped end `2600`.  Chunk 1 and chunk 2 do
share a 200-character overlap region: the last 200 characters of window 1
are exactly the first 200 characters of window 2. -/
theorem c2_chunk_2500_amended (text : List Char) (h : text.length = 2500)
    (hb : NoBreaks text) (fuel : Nat) :
    chunk_text text 1000 200 (fuel + 5) =
      some [pyStrip (pySlice text 0 1000), pyStrip (pySlice text 800 1800),
        pyStrip (pySlice text 1600 2600), pyStrip (pySlice text 2400 3400)] ∧
    (pySlice text 0 1000).drop 800 = (pySlice text 800 1800).take 200 ∧
    ((pySlice text 0 1000).drop 800).length = 200 :=
  ⟨chunk_text_2500 text h hb fuel, (window_overlap_200 text h).1, (window_overlap_200 text h).2⟩

/-- Witness for C2 (amended) at the concrete text of 2500 letters `a`. -/
theorem c2_chunk_2500_witness :
    (List.replicate 2500 'a').length = 2500 ∧ NoBreaks (List.replicate 2500 'a') ∧
    (chunk_text (List.replicate 2500 'a') 1000 200 5 =
      some [pyStrip (pySlice (List.replicate 2500 'a') 0 1000),
        pyStrip (pySlice (List.replicate 2500 'a') 800 1800),
        pyStrip (pySlice (List.replicate 2500 'a') 1600 2600),
        pyStrip (pySlice (List.replicate 2500 'a') 2400 3400)] ∧
      (pySlice (List.replicate 2500 'a') 0 1000).drop 800 =
        (pySlice (List.replicate 2500 'a') 800 1800).take 200 ∧
      ((pySlice (List.replicate 2500 'a') 0 1000).drop 800).length = 200) :=
  ⟨by rw [List.length_replicate], noBreaks_replicate_a 2500,
    c2_chunk_2500_amended (List.replicate 2500 'a') (by rw [List.length_replicate]) (noBreaks_replicate_a 2500) 0⟩

/-- Counterexample to C2 as stated: the all-letter text of exactly 2500
characters has no paragraph break and no sentence-ending period, yet the
chunker returns FOUR chunks, not three. -/
theorem c2_chunk_2500_counterexample :
    (List.replicate 2500 'a').length = 2500 ∧ NoBreaks (List.replicate 2500 'a') ∧
    Option.map List.length (chunk_text (List.replicate 2500 'a') 1000 200 5) = some 4 := by
  refine ⟨by rw [List.length_replicate], noBreaks_replicate_a 2500, ?_⟩
  rw [show (5 : Nat) = 0 + 5 from rfl,
    chunk_text_2500 (List.replicate 2500 'a') (by rw [List.length_replicate]) (noBreaks_replicate_a 2500) 0]
  rfl

/-! ## Divergence of the chunker loop -/

lemma chunkLoop_cycle : ∀ fuel : Nat, ∀ s : Int, s = 0 ∨ s = -3 ∨ s = -2 ∨ s = -1 →
    chunkLoop exText 10 9 s fuel = none := by
  intro fuel
  induction fuel with
  | zero =>
    intro s _
    rfl
  | succ n ih =>
    intro s hs
    have hlen : (exText.length : Int) = 12 := by decide
    rcases hs with rfl | rfl | rfl | rfl
    · rw [chunkLoop_cons exText 10 9 0 n (by rw [hlen]; norm_num),
        show (chunkStep exText 10 9 0).2 = -3 from by decide,
        ih (-3) (Or.inr (Or.inl rfl))]
      rfl
    · rw [chunkLoop_cons exText 10 9 (-3) n (by rw [hlen]; norm_num),
        show (chunkStep exText 10 9 (-3)).2 = -2 from by decide,
        ih (-2) (Or.inr (Or.inr (Or.inl rfl)))]
      rfl
    · rw [chunkLoop_cons exText 10 9 (-2) n (by rw [hlen]; norm_num),
        show (chunkStep exText 10 9 (-2)).2 = -1 from by decide,
        ih (-1) (Or.inr (Or.inr (Or.inr rfl)))]
      rfl
    · rw [chunkLoop_cons exText 10 9 (-1) n (by rw [hlen]; norm_num),
        show (chunkStep exText 10 9 (-1)).2 = 0 from by decide,
        ih 0 (Or.inl rfl)]
      rfl

/-- C3: the chunker is NOT total on its stated precondition `size > overlap
>= 0`.  On the 12-character text `abcdef` + paragraph break + `xyzw` with
`size = 10`, `overlap = 9`, the paragraph cut sets `end = 6`, so the next
start is `6 - 9 = -3`; Python negative slicing then yields empty windows and
the start position cycles `0, -3, -2, -1, 0, ...` forever.  In the fuel
model: the loop fails to terminate for every fuel bound. -/
theorem c3_chunker_divergence : ∀ fuel : Nat, chunk_text exText 10 9 fuel = none := by
  intro fuel
  have hrw : chunk_text exText 10 9 fuel = chunkLoop exText 10 9 0 fuel := by
    unfold chunk_text
    rw [if_neg (by decide), if_neg (by decide), if_neg (by decide)]
  rw [hrw]
  exact chunkLoop_cycle fuel 0 (Or.inl rfl)

/-! ## Chunk insertion -/

/-- C4 (amended): when `embeddings` is provided with a length different from
`len(texts)`, `insert_document_chunks` does NOT fail validation — the guard
`embeddings and len(embeddings) == len(chunks)` merely selects the
no-embedding branch, so the embeddings are silently discarded, all chunks are
written without embeddings, and the call reports success. -/
theorem c4_insert_mismatch_amended (storage : List ChunkRow) (document_id : Nat)
    (chunks : List (List Char)) (embs : List Emb) (h : embs.length ≠ chunks.length) :
    insert_document_chunks storage document_id chunks (some embs) =
      (true, storage ++ chunks.enum.map (fun p => ⟨document_id, p.1, p.2, none⟩)) := by
  simp only [insert_document_chunks]
  have hb : (embs.length == chunks.length) = false := beq_eq_false_iff_ne.mpr h
  rw [hb, Bool.and_false, if_neg (by simp)]

/-- Witness for C4 (amended): one chunk, two embeddings. -/
theorem c4_insert_mismatch_witness :
    ([[1], [2]] : List Emb).length ≠ [['a']].length ∧
    insert_document_chunks ([] : List ChunkRow) 1 [['a']] (some [[1], [2]]) =
      (true, [] ++ [['a']].enum.map (fun p => ⟨1, p.1, p.2, none⟩)) :=
  ⟨by decide, c4_insert_mismatch_amended [] 1 [['a']] [[1], [2]] (by decide)⟩

/-- Counterexample to C4 as stated: inserting one chunk together with two
embeddings does not fail and does not leave storage unchanged — it returns
`True` and writes the chunk row (without its embedding) into storage. -/
theorem c4_insert_mismatch_counterexample :
    (insert_document_chunks ([] : List ChunkRow) 1 [['a']] (some [[1], [2]])).1 = true ∧
    (insert_document_chunks ([] : List ChunkRow) 1 [['a']] (some [[1], [2]])).2 =
      [⟨1, 0, ['a'], none⟩] := by
  constructor <;> rfl

lemma map_chunk_index_enum {α : Type} (mk : Nat × α → ChunkRow)
    (h : ∀ p, (mk p).chunk_index = p.1) (l : List α) :
    (l.enum.map mk).map (fun r => r.chunk_index) = List.range l.length := by
  rw [List.map_map]
  have hf : ((fun r : ChunkRow => r.chunk_index) ∘ mk) = Prod.fst := funext h
  rw [hf, List.enum_map_fst]

/-- C6 (amended): on every branch of `insert_document_chunks`, the `n` rows
appended for a document carry the ordinal indices `0..n-1` exactly —
contiguous, starting at 0, strictly increasing (they are `enumerate`
indices).  The non-emptiness half of the original claim fails and is refuted
separately. -/
theorem c6_ordinals_amended (storage : List ChunkRow) (document_id : Nat)
    (chunks : List (List Char)) (embeddings : Option (List Emb)) :
    (((insert_document_chunks storage document_id chunks embeddings).2).drop
      storage.length).map (fun r => r.chunk_index) = List.range chunks.length := by
  rcases embeddings with _ | embs <;> simp only [insert_document_chunks]
  · rw [List.drop_left, map_chunk_index_enum _ (fun p => rfl)]
  · by_cases hc : (!embs.isEmpty && embs.length == chunks.length) = true
    · rw [if_pos hc, List.drop_left, map_chunk_index_enum _ (fun p => rfl)]
      have hlen : embs.length = chunks.length := by
        simp only [Bool.and_eq_true, beq_iff_eq] at hc
        exact hc.2
      rw [List.length_zip, hlen, min_self]
    · rw [if_neg hc, List.drop_left, map_chunk_index_enum _ (fun p => rfl)]

/-- Counterexample to the non-emptiness half of C6: the chunker, run on the
single-space text, emits exactly one chunk whose text is EMPTY (the window is
whitespace-only and `strip()` removes it all), and inserting that chunk
writes a row with empty content. -/
theorem c6_empty_chunk_counterexample :
    chunk_text [' '] 1000 200 2 = some [[]] ∧
    (insert_document_chunks [] 3 [[]] none).2 = [⟨3, 0, [], none⟩] := by
  constructor <;> rfl

/-! ## Batched embedding -/

lemma gen_batch_eq_aux (f : List Char → Emb) : ∀ n (texts : List (List Char)),
    texts.length ≤ n →
    generate_embeddings_batch f texts = texts.map (fun t => f (clean t)) := by
  intro n
  induction n with
  | zero =>
    intro texts h
    have ht : texts = [] := by
      cases texts with
      | nil => rfl
      | cons a l => simp at h
    subst ht
    rw [generate_embeddings_batch]
    simp
  | succ n ih =>
    intro texts h
    by_cases ht : texts = []
    · subst ht
      rw [generate_embeddings_batch]
      simp
    · rw [generate_embeddings_batch, dif_neg ht]
      have h1 : 0 < texts.length := List.length_pos.mpr ht
      rw [ih (texts.drop 20) (by rw [List.length_drop]; omega)]
      rw [List.map_take, List.map_drop, List.take_append_drop]

/-- C8: `generate_embeddings_batch` is 1:1 with and order-preserving over its
input — it equals the plain map of the (cleaned) embedding over the texts, so
the internal split into sub-batches of at most 20 is invisible to the caller,
and the output length equals the input length. -/
theorem c8_embed_batch (f : List Char → Emb) (texts : List (List Char)) :
    generate_embeddings_batch f texts = texts.map (fun t => f (clean t)) ∧
    (generate_embeddings_batch f texts).length = texts.length := by
  have h := gen_batch_eq_aux f texts.length texts le_rfl
  exact ⟨h, by rw [h, List.length_map]⟩

/-! ## The query pipeline -/

/-- C10: on every result path of `ask` — vector results, keyword results, or
the zero-result case — the returned dictionary satisfies
`num_sources = len(sources)`; both fields are computed from the same
retrieved list. -/
theorem c10_num_sources (env : SearchEnv) (llm : List Char → List Char → List Char)
    (query : List Char) (use_vector_search : Bool) :
    (ask env llm query use_vector_search).1.num_sources =
      (ask env llm query use_vector_search).1.sources.length := rfl

lemma llm_not_in_search_trace (env : SearchEnv) (query : List Char) (limit : Nat) :
    DbOp.llmCall ∉ (search_similar_chunks env query limit).2 := by
  unfold search_similar_chunks
  cases hq : env.embed query with
  | none => simp
  | some q =>
    by_cases he : q.isEmpty <;> cases hp : env.usePgvector <;> simp [he, hp]

/-- C7: whenever the retrieval step of `ask` returns zero chunks, the
response is the fixed no-relevant-information message, and no synthesis
(chat-completion) call is ever issued. -/
theorem c7_empty_short_circuit (env : SearchEnv) (llm : List Char → List Char → List Char)
    (query : List Char) (use_vector_search : Bool)
    (h : (ask env llm query use_vector_search).1.sources = []) :
    (ask env llm query use_vector_search).1.response = noInfoMsg ∧
      DbOp.llmCall ∉ (ask env llm query use_vector_search).2 := by
  dsimp only [ask] at h ⊢
  rw [h]
  refine ⟨rfl, ?_⟩
  rw [show (generate_answer_with_llm llm query []).2 = [] from rfl, List.append_nil]
  cases use_vector_search with
  | false =>
    rw [if_neg (by simp)]
    exact (by decide : DbOp.llmCall ∉ [DbOp.keywordQuery])
  | true =>
    rw [if_pos rfl]
    exact llm_not_in_search_trace env query 7

/-- Witness for C7 at a concrete environment with an empty store: retrieval
returns zero chunks, the fixed message is returned, and no synthesis call is
traced. -/
theorem c7_empty_short_circuit_witness :
    (ask emptyEnv llmConst ['x'] true).1.sources = [] ∧
    ((ask emptyEnv llmConst ['x'] true).1.response = noInfoMsg ∧
      DbOp.llmCall ∉ (ask emptyEnv llmConst ['x'] true).2) :=
  ⟨rfl, c7_empty_short_circuit emptyEnv llmConst ['x'] true rfl⟩

/-- C1 (amended): when the embedding call fails (`generate_embedding` returns
`None`), `search_similar_chunks` returns the EMPTY list at once — the keyword
fallback is NOT invoked on this path (it runs only when an exception escapes
the later body) — and `ask` therefore answers with the fixed
no-relevant-information response and zero sources. -/
theorem c1_embed_fail_amended (env : SearchEnv) (llm : List Char → List Char → List Char)
    (query : List Char) (limit : Nat) (h : env.embed query = none) :
    search_similar_chunks env query limit = ([], [DbOp.embedCall]) ∧
    DbOp.keywordQuery ∉ (search_similar_chunks env query limit).2 ∧
    (ask env llm query true).1.response = noInfoMsg ∧
    (ask env llm query true).1.sources = [] := by
  have hs : ∀ lim : Nat, search_similar_chunks env query lim = ([], [DbOp.embedCall]) := by
    intro lim
    unfold search_similar_chunks
    rw [h]
  have ha : ask env llm query true = (⟨query, noInfoMsg, [], 0⟩, [DbOp.embedCall]) := by
    unfold ask
    rw [if_pos rfl, hs 7]
    rfl
  rw [hs limit, ha]
  exact ⟨rfl, by decide, rfl, rfl⟩

/-- Witness for C1 (amended) at the concrete failing environment. -/
theorem c1_embed_fail_witness :
    HRDC.SearchEnv.embed failEnv "grant".toList = none ∧
    (search_similar_chunks failEnv "grant".toList 7 = ([], [DbOp.embedCall]) ∧
      DbOp.keywordQuery ∉ (search_similar_chunks failEnv "grant".toList 7).2 ∧
      (ask failEnv llmConst "grant".toList true).1.response = noInfoMsg ∧
      (ask failEnv llmConst "grant".toList true).1.sources = []) :=
  ⟨rfl, c1_embed_fail_amended failEnv llmConst "grant".toList 7 rfl⟩

/-- Counterexample to C1 as stated: in an environment where the embedding
call fails while the store holds a row matching the query, the search
returns the empty list — an empty short-circuit — although keyword search
would have returned that row; no keyword query is traced, and `ask` ends in
the fixed no-information response with zero sources. -/
theorem c1_embed_fail_counterexample :
    (search_similar_chunks failEnv "grant".toList 7).1 = [] ∧
    search_by_keyword (HRDC.SearchEnv.rows failEnv) "grant".toList 7 ≠ [] ∧
    DbOp.keywordQuery ∉ (search_similar_chunks failEnv "grant".toList 7).2 ∧
    (ask failEnv llmConst "grant".toList true).1.response = noInfoMsg ∧
    (ask failEnv llmConst "grant".toList true).1.num_sources = 0 := by
  refine ⟨rfl, by decide, by decide, rfl, rfl⟩

/-- C9 (amended): the embedding-column capability is decided once inside
`create_tables` only for choosing the column type; `search_similar_chunks`
does NOT consult a cached flag — every request whose query embedding is
truthy issues the `information_schema` probe anew before choosing a path. -/
theorem c9_probe_amended (env : SearchEnv) (query : List Char) (limit : Nat) (q : Emb)
    (h1 : env.embed query = some q) (h2 : q.isEmpty = false) :
    DbOp.probeSchema ∈ (search_similar_chunks env query limit).2 := by
  unfold search_similar_chunks
  rw [h1]
  cases hp : env.usePgvector <;> simp [h2, hp]

/-- Witness for C9 (amended) at a concrete environment. -/
theorem c9_probe_witness :
    HRDC.SearchEnv.embed emptyEnv ['x'] = some [1] ∧ ([1] : Emb).isEmpty = false ∧
    DbOp.probeSchema ∈ (search_similar_chunks emptyEnv ['x'] 5).2 :=
  ⟨rfl, rfl, c9_probe_amended emptyEnv ['x'] 5 [1] rfl rfl⟩

/-- Counterexample to C9 as stated: a single similarity-search request traces
the `information_schema` capability probe, and two consecutive requests probe
twice — the capability is re-probed per request, not cached. -/
theorem c9_probe_counterexample :
    (search_similar_chunks emptyEnv ['x'] 5).2 =
      [DbOp.embedCall, DbOp.probeSchema, DbOp.jsonbFetch] ∧
    ((search_similar_chunks emptyEnv ['x'] 5).2 ++
      (search_similar_chunks emptyEnv ['x'] 5).2).count DbOp.probeSchema = 2 := by
  constructor <;> rfl

/-- C5 (amended): the in-memory (JSONB) vector search path returns results
ordered by similarity score descending and truncated to the requested limit;
NO date or ordinal tie-break is applied (the sort key is the score alone, and
the sort is stable in the fetched candidate order). -/
theorem c5_order_amended (sim : Emb → Emb → ℚ) (rows : List DocRow) (q : Emb) (limit : Nat) :
    List.Pairwise (fun x y : DocRow × ℚ => y.2 ≤ x.2) (jsonb_search sim rows q limit) ∧
    (jsonb_search sim rows q limit).length ≤ limit := by
  constructor
  · unfold jsonb_search
    apply List.Pairwise.sublist (List.take_sublist _ _)
    haveI ht : IsTotal (DocRow × ℚ) (fun x y => y.2 ≤ x.2) := ⟨fun a b => le_total b.2 a.2⟩
    haveI htr : IsTrans (DocRow × ℚ) (fun x y => y.2 ≤ x.2) :=
      ⟨fun a b c hab hbc => le_trans hbc hab⟩
    exact List.sorted_insertionSort (fun x y : DocRow × ℚ => y.2 ≤ x.2) _
  · unfold jsonb_search
    rw [List.length_take]
    exact min_le_left _ _

/-- Counterexample to C5 as stated: two candidates with identical embeddings
score identically; the returned order keeps the fetch order (older document
first), although the claimed date-descending tie-break would demand the newer
document first — `specLe` fails on the returned adjacent pair. -/
theorem c5_order_counterexample :
    jsonb_search cosine1 [rowOld, rowNew] [1] 7 = [(rowOld, 1), (rowNew, 1)] ∧
    HRDC.DocRow.date rowOld = some 1 ∧ HRDC.DocRow.date rowNew = some 2 ∧
    ¬ specLe (rowOld, 1) (rowNew, 1) ∧
    ¬ List.Pairwise specLe (jsonb_search cosine1 [rowOld, rowNew] [1] 7) := by
  have hc : cosine1 [1] [1] = 1 := by
    unfold cosine1 dotProd norm1
    simp
  have hj : jsonb_search cosine1 [rowOld, rowNew] [1] 7 = [(rowOld, 1), (rowNew, 1)] := by
    show (([(rowOld, cosine1 [1] [1]), (rowNew, cosine1 [1] [1])] :
        List (DocRow × ℚ)).insertionSort (fun x y => y.2 ≤ x.2)).take 7 =
      [(rowOld, 1), (rowNew, 1)]
    rw [hc]
    decide
  refine ⟨hj, rfl, rfl, by decide, ?_⟩
  rw [hj]
  intro hp
  exact absurd ((List.pairwise_cons.mp hp).1 (rowNew, 1) (by simp)) (by decide)

end HRDC
